import Mathlib

/-!
Verification of the `Result` core of `rustacean-ts` (`src/result/index.ts`).

The source is a Rust-style result type for TypeScript: a closed two-variant
union `Result<T, E> = Ok<T> | Err<E>` with query, transformation and
extraction methods, plus a free dispatch function `match`.

Shallow embedding conventions:
* The TS union `Ok<T> | Err<E>` becomes the inductive `Result T E`.
* The polymorphic accessor `val : T | E` returns `Sum T E`; `Sum.inl` is the
  embedding of `T` into the union, `Sum.inr` that of `E`.
* A thrown JS value is modeled by `JSError`: `raw e` is `throw e` (the value
  itself), `errorObj s` is `throw new Error(s)`.  Methods that can throw
  return `Except (JSError _) _`.
* Template-literal stringification `${x}` is modeled by an explicit
  `toStr` function argument.
* Callback invocations (for call-count properties) are recorded as the list
  of arguments the callback is applied to, read off the method bodies.
* Exception propagation through caller-supplied callbacks is modeled in the
  `Throwing` namespace, where a callback returns `Except X _`.
* Reference identity (`return this` versus `return ok(...)`) is modeled in
  the `Instance` structure, which pairs a `Result` with an allocation id.
-/

namespace Rustacean

/-- The closed union `Result<T, E> = Ok<T> | Err<E>` from
`src/result/index.ts` line 325.  `Ok` holds one value of type `T`
(field `value`), `Err` one value of type `E` (field `error`). -/
inductive Result (T E : Type) where
  | Ok : T → Result T E
  | Err : E → Result T E
deriving DecidableEq

/-- Constructor `ok(value)` (line 253): `return new Ok(value)`. -/
def ok {T E : Type} (value : T) : Result T E := Result.Ok value

/-- Constructor `err(error)` (line 321): `return new Err(error)`. -/
def err {T E : Type} (error : E) : Result T E := Result.Err error

/-- Accessor `val` (lines 191 and 259): `Ok.val` returns `this.value`,
`Err.val` returns `this.error`.  Its TS type is the union `T | E`,
embedded as `Sum T E`. -/
def Result.val {T E : Type} : Result T E → Sum T E
  | .Ok v => Sum.inl v
  | .Err e => Sum.inr e

/-- `isOk()` (lines 195 and 263): `true` on `Ok`, `false` on `Err`. -/
def Result.isOk {T E : Type} : Result T E → Bool
  | .Ok _ => true
  | .Err _ => false

/-- `isErr()` (lines 203 and 271): `false` on `Ok`, `true` on `Err`. -/
def Result.isErr {T E : Type} : Result T E → Bool
  | .Ok _ => false
  | .Err _ => true

/-- `isOkAnd(fn)` (lines 199 and 267): `Ok` returns `fn(this.value)`,
`Err` returns `false` without invoking `fn`. -/
def Result.isOkAnd {T E : Type} (fn : T → Bool) : Result T E → Bool
  | .Ok v => fn v
  | .Err _ => false

/-- `isErrAnd(fn)` (lines 207 and 275): `Ok` returns `false` without
invoking `fn`, `Err` returns `fn(this.error)`. -/
def Result.isErrAnd {T E : Type} (fn : E → Bool) : Result T E → Bool
  | .Ok _ => false
  | .Err e => fn e

/-- `map(fn)` (lines 211 and 279): `Ok.map` returns `ok(fn(this.value))`;
`Err.map` returns `this` (the unchanged `Err`). -/
def Result.map {T E U : Type} (fn : T → U) : Result T E → Result U E
  | .Ok v => ok (fn v)
  | .Err e => Result.Err e

/-- Arguments at which `map(fn)` invokes `fn`: `Ok.map` (line 211)
evaluates `fn(this.value)` exactly once; `Err.map` (line 279) returns
`this` without touching `fn`. -/
def Result.mapCalls {T E : Type} : Result T E → List T
  | .Ok v => [v]
  | .Err _ => []

/-- `mapOr(fn, defaultValue)` (lines 215 and 283): `Ok` returns
`fn(this.value)` (its implementation ignores the default), `Err` returns
`defaultValue` without invoking `fn`. -/
def Result.mapOr {T E U : Type} (fn : T → U) (defaultValue : U) : Result T E → U
  | .Ok v => fn v
  | .Err _ => defaultValue

/-- `mapOrElse(fn, defaultFn)` (lines 219 and 287): `Ok` returns
`fn(this.value)`, `Err` returns `defaultFn(this.error)`. -/
def Result.mapOrElse {T E U : Type} (fn : T → U) (defaultFn : E → U) : Result T E → U
  | .Ok v => fn v
  | .Err e => defaultFn e

/-- `mapErr(fn)` (lines 223 and 291): `Ok.mapErr` returns `this` (the
unchanged `Ok`); `Err.mapErr` returns `err(fn(this.error))`. -/
def Result.mapErr {T E U : Type} (fn : E → U) : Result T E → Result T U
  | .Ok v => Result.Ok v
  | .Err e => err (fn e)

/-- `inspect(fn)` (lines 227 and 295): `Ok.inspect` calls `fn(this.value)`
for side effect and returns `this`; `Err.inspect` returns `this` without
calling `fn`.  Since `fn` returns `void`, its only observable behavior is
its invocations; the embedding returns the list of arguments `fn` is
applied to together with the returned `Result`. -/
def Result.inspect {T E : Type} (fn : T → Unit) : Result T E → List T × Result T E
  | .Ok v =>
    let _ := fn v
    ([v], Result.Ok v)
  | .Err e => ([], Result.Err e)

/-- `inspectErr(fn)` (lines 232 and 299): `Ok.inspectErr` returns `this`
without calling `fn`; `Err.inspectErr` calls `fn(this.error)` for side
effect and returns `this`.  Modeled like `inspect`. -/
def Result.inspectErr {T E : Type} (fn : E → Unit) : Result T E → List E × Result T E
  | .Ok v => ([], Result.Ok v)
  | .Err e =>
    let _ := fn e
    ([e], Result.Err e)

/-- A thrown JS value: `raw e` models `throw e` (the value itself is the
thrown exception); `errorObj s` models `throw new Error(s)` (an `Error`
object whose message is `s`). -/
inductive JSError (A : Type) where
  | raw : A → JSError A
  | errorObj : String → JSError A
deriving DecidableEq

/-- Helper `unwrapFailed(msg, error)` (line 327):
`throw new Error(msg + ": " + error)` where the template literal
stringifies `error`; the stringification is the explicit `toStr`. -/
def unwrapFailed {A X : Type} (toStr : A → String) (msg : String) (error : A) :
    JSError X :=
  JSError.errorObj (msg ++ ": " ++ toStr error)

/-- `unwrap()` (lines 240 and 308): `Ok.unwrap` returns `this.value`;
`Err.unwrap` executes `throw this.error` — the raw error value itself is
thrown, not a wrapped `Error`. -/
def Result.unwrap {T E : Type} : Result T E → Except (JSError E) T
  | .Ok v => Except.ok v
  | .Err e => Except.error (JSError.raw e)

/-- `expect(msg)` (lines 236 and 304): `Ok.expect` returns `this.value`;
`Err.expect` calls `unwrapFailed(msg, this.error)`. -/
def Result.expect {T E : Type} (toStr : E → String) (msg : String) :
    Result T E → Except (JSError E) T
  | .Ok v => Except.ok v
  | .Err e => Except.error (unwrapFailed toStr msg e)

/-- `unwrapErr()` (lines 248 and 316): `Err.unwrapErr` returns
`this.error`; `Ok.unwrapErr` calls
`unwrapFailed("called \`Result.unwrapErr()\` on an \`Ok\` value", this.value)`. -/
def Result.unwrapErr {T E : Type} (toStr : T → String) :
    Result T E → Except (JSError T) E
  | .Ok v =>
    Except.error (unwrapFailed toStr "called `Result.unwrapErr()` on an `Ok` value" v)
  | .Err e => Except.ok e

/-- `expectErr(msg)` (lines 244 and 312): `Err.expectErr` returns
`this.error`; `Ok.expectErr` calls `unwrapFailed(msg, this.value)`. -/
def Result.expectErr {T E : Type} (toStr : T → String) (msg : String) :
    Result T E → Except (JSError T) E
  | .Ok v => Except.error (unwrapFailed toStr msg v)
  | .Err e => Except.ok e

/-- Free function `match(result, okCallback, errorCallback)` (line 334):
if `result.isOk()` return `okCallback(result.val)`, else return
`errorCallback(result.val)`.  Named `matchResult` because `match` is a
Lean keyword. -/
def matchResult {T E U : Type} (result : Result T E)
    (okCallback : T → U) (errorCallback : E → U) : U :=
  match result with
  | .Ok v => okCallback v
  | .Err e => errorCallback e

/-- Arguments at which `match` (line 334) invokes its two callbacks: on
`Ok` the body runs `okCallback(result.val)` once and never touches
`errorCallback`; on `Err`, the reverse. -/
def matchCalls {T E : Type} : Result T E → List T × List E
  | .Ok v => ([v], [])
  | .Err e => ([], [e])

/-- A callback that never throws: it returns `Except.ok` on every input. -/
def NoThrow {A X B : Type} (f : A → Except X B) : Prop :=
  ∀ a, ∃ b, f a = Except.ok b

/-- Whether an `Except` computation returned normally. -/
def returnedOk {X A : Type} : Except X A → Bool
  | .ok _ => true
  | .error _ => false

namespace Throwing

/-!
The same method bodies translated under TS exception semantics for the
caller-supplied callback: the callback has type `A → Except X B`, a call
that throws propagates unmodified (the methods install no handler), and a
call that returns feeds the method body exactly as in the pure embedding.
-/

/-- `isOkAnd(fn)` with a possibly-throwing `fn`: `Ok` evaluates
`fn(this.value)` and propagates its outcome; `Err` returns `false`. -/
def isOkAnd {T E X : Type} (fn : T → Except X Bool) :
    Result T E → Except X Bool
  | .Ok v => fn v
  | .Err _ => Except.ok false

/-- `isErrAnd(fn)` with a possibly-throwing `fn`. -/
def isErrAnd {T E X : Type} (fn : E → Except X Bool) :
    Result T E → Except X Bool
  | .Ok _ => Except.ok false
  | .Err e => fn e

/-- `map(fn)` with a possibly-throwing `fn`: `Ok` evaluates
`fn(this.value)`; if it throws the exception propagates, else the body
returns `ok(result)`.  `Err` returns `this` without calling `fn`. -/
def map {T E U X : Type} (fn : T → Except X U) :
    Result T E → Except X (Result U E)
  | .Ok v =>
    match fn v with
    | .ok u => Except.ok (ok u)
    | .error x => Except.error x
  | .Err e => Except.ok (Result.Err e)

/-- `mapOr(fn, defaultValue)` with a possibly-throwing `fn`. -/
def mapOr {T E U X : Type} (fn : T → Except X U) (defaultValue : U) :
    Result T E → Except X U
  | .Ok v => fn v
  | .Err _ => Except.ok defaultValue

/-- `mapOrElse(fn, defaultFn)` with possibly-throwing callbacks. -/
def mapOrElse {T E U X : Type} (fn : T → Except X U) (defaultFn : E → Except X U) :
    Result T E → Except X U
  | .Ok v => fn v
  | .Err e => defaultFn e

/-- `mapErr(fn)` with a possibly-throwing `fn`: `Ok` returns `this`;
`Err` evaluates `fn(this.error)` and wraps the result in `err`. -/
def mapErr {T E U X : Type} (fn : E → Except X U) :
    Result T E → Except X (Result T U)
  | .Ok v => Except.ok (Result.Ok v)
  | .Err e =>
    match fn e with
    | .ok u => Except.ok (err u)
    | .error x => Except.error x

/-- `inspect(fn)` with a possibly-throwing `fn`: `Ok` evaluates
`fn(this.value)`, propagating a throw, then returns `this`; `Err`
returns `this` without calling `fn`. -/
def inspect {T E X : Type} (fn : T → Except X Unit) :
    Result T E → Except X (Result T E)
  | .Ok v =>
    match fn v with
    | .ok _ => Except.ok (Result.Ok v)
    | .error x => Except.error x
  | .Err e => Except.ok (Result.Err e)

/-- `inspectErr(fn)` with a possibly-throwing `fn`, symmetric to
`inspect`. -/
def inspectErr {T E X : Type} (fn : E → Except X Unit) :
    Result T E → Except X (Result T E)
  | .Ok v => Except.ok (Result.Ok v)
  | .Err e =>
    match fn e with
    | .ok _ => Except.ok (Result.Err e)
    | .error x => Except.error x

end Throwing

/-- A `Result` instance together with its allocation identity: a JS object
reference is modeled as a numeric id handed out at allocation.  A method
body that executes `return this` yields the receiver (same `ref`); a body
that executes `return ok(...)` or `return err(...)` allocates, yielding
the next fresh id. -/
structure Instance (T E : Type) where
  ref : Nat
  data : Result T E
deriving DecidableEq

namespace Instance

/-- `map(fn)` under the identity model: `Ok.map` (line 211) runs
`return ok(fn(this.value))`, allocating a new instance with id `fresh`;
`Err.map` (line 279) runs `return this`, so the receiver itself (same
`ref`, same `data`) is returned. -/
def map {T E U : Type} (fresh : Nat) (fn : T → U) :
    Instance T E → Instance U E
  | ⟨_, .Ok v⟩ => ⟨fresh, Result.Ok (fn v)⟩
  | ⟨r, .Err e⟩ => ⟨r, Result.Err e⟩

/-- `mapErr(fn)` under the identity model: `Ok.mapErr` (line 223) runs
`return this`; `Err.mapErr` (line 291) runs `return err(fn(this.error))`,
allocating. -/
def mapErr {T E U : Type} (fresh : Nat) (fn : E → U) :
    Instance T E → Instance T U
  | ⟨r, .Ok v⟩ => ⟨r, Result.Ok v⟩
  | ⟨_, .Err e⟩ => ⟨fresh, Result.Err (fn e)⟩

/-- `inspect(fn)` under the identity model: both bodies (lines 227 and
295) end in `return this`; `Ok.inspect` first calls `fn(this.value)`. -/
def inspect {T E : Type} (fn : T → Unit) : Instance T E → Instance T E
  | ⟨r, .Ok v⟩ =>
    let _ := fn v
    ⟨r, Result.Ok v⟩
  | ⟨r, .Err e⟩ => ⟨r, Result.Err e⟩

/-- `inspectErr(fn)` under the identity model: both bodies (lines 232 and
299) end in `return this`; `Err.inspectErr` first calls
`fn(this.error)`. -/
def inspectErr {T E : Type} (fn : E → Unit) : Instance T E → Instance T E
  | ⟨r, .Ok v⟩ => ⟨r, Result.Ok v⟩
  | ⟨r, .Err e⟩ =>
    let _ := fn e
    ⟨r, Result.Err e⟩

end Instance

/-- Executable substring test used to compare failure messages: whether
`needle` occurs contiguously inside `hay`. -/
def containsSub (needle hay : String) : Bool :=
  hay.toList.tails.any (fun t => needle.toList.isPrefixOf t)

/-- C1: for every value `v`, `ok(v).isOk()` is `true`, `ok(v).isErr()` is
`false` and `ok(v).val` is `v` (embedded into the union `T | E` as
`Sum.inl v`); for every error `e`, `err(e).isOk()` is `false`,
`err(e).isErr()` is `true` and `err(e).val` is `e` (`Sum.inr e`). -/
theorem constructors_and_queries {T E : Type} (v : T) (e : E) :
    (ok v : Result T E).isOk = true ∧
    (ok v : Result T E).isErr = false ∧
    (ok v : Result T E).val = Sum.inl v ∧
    (err e : Result T E).isOk = false ∧
    (err e : Result T E).isErr = true ∧
    (err e : Result T E).val = Sum.inr e :=
  ⟨rfl, rfl, rfl, rfl, rfl, rfl⟩

/-- C2: `ok(v).unwrap()` returns `v`; `err(e).unwrap()` throws the
contained error value `e` itself (`JSError.raw e`, the model of
`throw this.error`), not a wrapped message (`JSError.errorObj`). -/
theorem unwrap_spec {T E : Type} (v : T) (e : E) :
    (ok v : Result T E).unwrap = Except.ok v ∧
    (err e : Result T E).unwrap = Except.error (JSError.raw e) :=
  ⟨rfl, rfl⟩

/-- C3 counterexample: at `v = 2`, `ok(2).unwrapErr()` throws an `Error`
whose message is `"called \`Result.unwrapErr()\` on an \`Ok\` value: 2"`.
The claimed description `"called unwrapErr() on an Ok value"` (plus the
stringified value appended) differs from it, and is not even a substring
of the actual message, because of the backticks and the `Result.` prefix
the code uses. -/
theorem unwrapErr_message_cex :
    Result.unwrapErr toString (ok (2 : Nat) : Result Nat String) =
      Except.error
        (JSError.errorObj "called `Result.unwrapErr()` on an `Ok` value: 2") ∧
    "called `Result.unwrapErr()` on an `Ok` value: 2" ≠
      "called unwrapErr() on an Ok value: 2" ∧
    "called `Result.unwrapErr()` on an `Ok` value: 2" ≠
      "called unwrapErr() on an Ok value2" ∧
    containsSub "called unwrapErr() on an Ok value"
      "called `Result.unwrapErr()` on an `Ok` value: 2" = false :=
  ⟨rfl, by decide, by decide, by decide⟩

/-- C3 amended: for every error `e`, `err(e).unwrapErr()` returns `e`;
for every value `v`, `ok(v).unwrapErr()` throws an `Error` whose message
is `"called \`Result.unwrapErr()\` on an \`Ok\` value"` followed by
`": "` and the stringified success value. -/
theorem unwrapErr_spec {T E : Type} (toStr : T → String) (v : T) (e : E) :
    Result.unwrapErr toStr (err e : Result T E) = Except.ok e ∧
    Result.unwrapErr toStr (ok v : Result T E) =
      Except.error
        (JSError.errorObj
          ("called `Result.unwrapErr()` on an `Ok` value" ++ ": " ++ toStr v)) :=
  ⟨rfl, rfl⟩

/-- C4: `ok(v).expect(m)` returns `v`; `err(e).expect(m)` throws an
`Error` whose message is `m ++ ": " ++ toStr e`, so the message contains
both the caller-supplied context string and the stringified error as
contiguous substrings. -/
theorem expect_spec {T E : Type} (toStr : E → String) (v : T) (e : E)
    (m : String) :
    Result.expect toStr m (ok v : Result T E) = Except.ok v ∧
    Result.expect toStr m (err e : Result T E) =
      Except.error (JSError.errorObj (m ++ ": " ++ toStr e)) ∧
    List.IsInfix m.toList (m ++ ": " ++ toStr e).toList ∧
    List.IsInfix (toStr e).toList (m ++ ": " ++ toStr e).toList := by
  refine ⟨rfl, rfl, ?_, ?_⟩
  · exact ⟨[], (": " ++ toStr e).toList, by simp [String.toList]⟩
  · exact ⟨(m ++ ": ").toList, [], by simp [String.toList]⟩

/-- C5: no operation of the core throws except the four extraction
operations on the mismatched variant.  For every `Result`, every
callback-taking query (`isOkAnd`, `isErrAnd`) and every transformation
(`map`, `mapOr`, `mapOrElse`, `mapErr`, `inspect`, `inspectErr`) returns
normally whenever the caller-supplied callbacks do not themselves throw
(the callback-free queries `isOk`, `isErr`, `val` are total functions of
the embedding and cannot throw at all), and the matched-variant
extraction (`unwrap`/`expect` on `Ok`, `unwrapErr`/`expectErr` on `Err`)
returns normally as well. -/
theorem no_throw_policy {T E U V X : Type} (r : Result T E)
    (p : T → Except X Bool) (q : E → Except X Bool)
    (f : T → Except X U) (g : E → Except X V)
    (d : U) (fb : E → Except X U)
    (ti : T → Except X Unit) (te : E → Except X Unit)
    (toStrT : T → String) (toStrE : E → String) (m : String)
    (hp : NoThrow p) (hq : NoThrow q) (hf : NoThrow f) (hg : NoThrow g)
    (hfb : NoThrow fb) (hti : NoThrow ti) (hte : NoThrow te) :
    returnedOk (Throwing.isOkAnd p r) = true ∧
    returnedOk (Throwing.isErrAnd q r) = true ∧
    returnedOk (Throwing.map f r) = true ∧
    returnedOk (Throwing.mapOr f d r) = true ∧
    returnedOk (Throwing.mapOrElse f fb r) = true ∧
    returnedOk (Throwing.mapErr g r) = true ∧
    returnedOk (Throwing.inspect ti r) = true ∧
    returnedOk (Throwing.inspectErr te r) = true ∧
    (r.isOk = true →
      returnedOk r.unwrap = true ∧
      returnedOk (r.expect toStrE m) = true) ∧
    (r.isErr = true →
      returnedOk (r.unwrapErr toStrT) = true ∧
      returnedOk (r.expectErr toStrT m) = true) := by
  cases r with
  | Ok v =>
    obtain ⟨b1, e1⟩ := hp v
    obtain ⟨u1, e2⟩ := hf v
    obtain ⟨w1, e3⟩ := hti v
    refine ⟨?_, ?_, ?_, ?_, ?_, ?_, ?_, ?_, ?_, ?_⟩ <;>
      simp [Throwing.isOkAnd, Throwing.isErrAnd, Throwing.map, Throwing.mapOr,
        Throwing.mapOrElse, Throwing.mapErr, Throwing.inspect,
        Throwing.inspectErr, Result.unwrap, Result.expect, Result.unwrapErr,
        Result.expectErr, Result.isOk, Result.isErr, returnedOk, e1, e2, e3]
  | Err e =>
    obtain ⟨b1, e1⟩ := hq e
    obtain ⟨u1, e2⟩ := hg e
    obtain ⟨u2, e3⟩ := hfb e
    obtain ⟨w1, e4⟩ := hte e
    refine ⟨?_, ?_, ?_, ?_, ?_, ?_, ?_, ?_, ?_, ?_⟩ <;>
      simp [Throwing.isOkAnd, Throwing.isErrAnd, Throwing.map, Throwing.mapOr,
        Throwing.mapOrElse, Throwing.mapErr, Throwing.inspect,
        Throwing.inspectErr, Result.unwrap, Result.expect, Result.unwrapErr,
        Result.expectErr, Result.isOk, Result.isErr, returnedOk, e1, e2, e3, e4]

/-- C5 witness: the no-throw policy instantiated at `ok 3` with concrete
non-throwing callbacks. -/
theorem no_throw_policy_witness :
    returnedOk (Throwing.isOkAnd
      (fun n => (Except.ok (decide (0 < n)) : Except String Bool))
      (ok 3 : Result Nat String)) = true ∧
    returnedOk (Throwing.isErrAnd
      (fun s => (Except.ok (decide (s = "x")) : Except String Bool))
      (ok 3 : Result Nat String)) = true ∧
    returnedOk (Throwing.map
      (fun n => (Except.ok (n + 1) : Except String Nat))
      (ok 3 : Result Nat String)) = true ∧
    returnedOk (Throwing.mapOr
      (fun n => (Except.ok (n + 1) : Except String Nat)) 0
      (ok 3 : Result Nat String)) = true ∧
    returnedOk (Throwing.mapOrElse
      (fun n => (Except.ok (n + 1) : Except String Nat))
      (fun _ => (Except.ok 7 : Except String Nat))
      (ok 3 : Result Nat String)) = true ∧
    returnedOk (Throwing.mapErr
      (fun _ => (Except.ok 0 : Except String Nat))
      (ok 3 : Result Nat String)) = true ∧
    returnedOk (Throwing.inspect
      (fun _ => (Except.ok () : Except String Unit))
      (ok 3 : Result Nat String)) = true ∧
    returnedOk (Throwing.inspectErr
      (fun _ => (Except.ok () : Except String Unit))
      (ok 3 : Result Nat String)) = true ∧
    ((ok 3 : Result Nat String).isOk = true →
      returnedOk (ok 3 : Result Nat String).unwrap = true ∧
      returnedOk ((ok 3 : Result Nat String).expect id "ctx") = true) ∧
    ((ok 3 : Result Nat String).isErr = true →
      returnedOk ((ok 3 : Result Nat String).unwrapErr toString) = true ∧
      returnedOk ((ok 3 : Result Nat String).expectErr toString "ctx") = true) :=
  no_throw_policy (ok 3) (fun n => Except.ok (decide (0 < n)))
    (fun s => Except.ok (decide (s = "x"))) (fun n => Except.ok (n + 1))
    (fun _ => Except.ok 0) 0 (fun _ => Except.ok 7) (fun _ => Except.ok ())
    (fun _ => Except.ok ()) toString id "ctx"
    (fun a => ⟨decide (0 < a), rfl⟩) (fun a => ⟨decide (a = "x"), rfl⟩)
    (fun a => ⟨a + 1, rfl⟩) (fun _ => ⟨0, rfl⟩) (fun _ => ⟨7, rfl⟩)
    (fun _ => ⟨(), rfl⟩) (fun _ => ⟨(), rfl⟩)

/-- C6: `ok(v).map(f)` yields `Ok(f v)` (so its `val` is `f v`), and
`err(e).map(f)` yields the unchanged `Err(e)` (its `val` is still `e`),
with `f` invoked zero times on the `Err` path (`mapCalls` is empty). -/
theorem map_functor_law {T E U : Type} (f : T → U) (v : T) (e : E) :
    (ok v : Result T E).map f = ok (f v) ∧
    ((ok v : Result T E).map f).val = Sum.inl (f v) ∧
    (err e : Result T E).map f = err e ∧
    ((err e : Result T E).map f).val = Sum.inr e ∧
    (err e : Result T E).mapCalls = [] ∧
    (ok v : Result T E).mapCalls = [v] :=
  ⟨rfl, rfl, rfl, rfl, rfl, rfl⟩

/-- C7: mapping twice equals mapping the composition, as an equality of
`Result` values (hence same variant and same `val`): for `Ok` both sides
carry `g (f v)`, for `Err` both sides are the unchanged error. -/
theorem map_composition_law {T E U W : Type} (r : Result T E)
    (f : T → U) (g : U → W) :
    (r.map f).map g = r.map (fun x => g (f x)) := by
  cases r <;> rfl

/-- C8: `match(result, onOk, onErr)` evaluates `onOk(value)` on `Ok` and
`onErr(error)` on `Err`, returning what that callback returns; exactly
one of the two callbacks is invoked per call (the invocation lists have
total length 1); and the two concrete examples from the spec hold. -/
theorem match_dispatch {T E U : Type} (r : Result T E)
    (onOk : T → U) (onErr : E → U) (v : T) (e : E) :
    matchResult (ok v : Result T E) onOk onErr = onOk v ∧
    matchResult (err e : Result T E) onOk onErr = onErr e ∧
    matchCalls (ok v : Result T E) = ([v], []) ∧
    matchCalls (err e : Result T E) = ([], [e]) ∧
    (matchCalls r).1.length + (matchCalls r).2.length = 1 ∧
    matchResult (ok 2 : Result Int String) (fun x => x * 2) (fun _ => -1) = 4 ∧
    matchResult (err "boom" : Result Int String) (fun x => x * 2)
      (fun _ => -1) = -1 := by
  refine ⟨rfl, rfl, rfl, rfl, ?_, by decide, by decide⟩
  cases r <;> rfl

/-- C9: `inspect` invokes its callback exactly once with the contained
value on `Ok` and zero times on `Err`; `inspectErr` invokes its callback
exactly once with the contained error on `Err` and zero times on `Ok`;
both return a `Result` equal to the input. -/
theorem inspect_spec {T E : Type} (fn : T → Unit) (gn : E → Unit)
    (v : T) (e : E) :
    (ok v : Result T E).inspect fn = ([v], ok v) ∧
    (err e : Result T E).inspect fn = ([], err e) ∧
    (err e : Result T E).inspectErr gn = ([e], err e) ∧
    (ok v : Result T E).inspectErr gn = ([], ok v) :=
  ⟨rfl, rfl, rfl, rfl⟩

/-- C10: under the allocation-identity model, the no-op paths return the
receiver itself (same allocation id, no new allocation): `Err.map`,
`Err.inspect`, `Ok.mapErr` and `Ok.inspectErr` all execute
`return this`.  By contrast `Ok.map` allocates: it returns an instance
carrying the fresh id. -/
theorem noop_paths_return_this {T E U : Type} (r fresh : Nat) (v : T) (e : E)
    (f : T → U) (g : E → U) (fi : T → Unit) (gi : E → Unit) :
    Instance.map fresh f (⟨r, Result.Err e⟩ : Instance T E) = ⟨r, Result.Err e⟩ ∧
    Instance.inspect fi (⟨r, Result.Err e⟩ : Instance T E) = ⟨r, Result.Err e⟩ ∧
    Instance.mapErr fresh g (⟨r, Result.Ok v⟩ : Instance T E) = ⟨r, Result.Ok v⟩ ∧
    Instance.inspectErr gi (⟨r, Result.Ok v⟩ : Instance T E) = ⟨r, Result.Ok v⟩ ∧
    Instance.map fresh f (⟨r, Result.Ok v⟩ : Instance T E) =
      ⟨fresh, Result.Ok (f v)⟩ :=
  ⟨rfl, rfl, rfl, rfl, rfl⟩

end Rustacean
